import Mathlib

/-!
# Script container of the NWN engine (`src/engines/nwn/script/container.cpp`)

A shallow embedding of `Engines::NWN::ScriptContainer`: the table of event
scripts of a game object, the alias table `kScriptNames` used to fill it from
a GFF3 record, and the dispatch into the NWScript engine (`runScript`).

Conventions of the embedding.

* A value of the C++ enumeration type `Script` is an `Int`: a caller can pass
  any integer, and `getScript` guards the range with `assert`.
* `assert` is modelled as in a debug build: a failed assertion ends the call
  with `Error.assertion`.
* A block that can throw a C++ exception returns an `Except`; `try`/`catch (...)`
  is a `match` on the outcome of the guarded block.  `Error.exception` is the
  outcome of a call that an exception leaves.
* The array `_scripts[kScriptMAX]` is a function on `Fin kScriptMAX`; the
  `for` loops over it are left folds over the indices in ascending order.
-/

namespace Engines

namespace NWN

/-- Modelled from the spec: the enumeration `Script` of `container.h`, which is
not part of the sources at hand.  The spec describes "a fixed-size collection,
one entry per recognized event kind"; the enumerators are the ones the alias
table `kScriptNames` names, and each of them is a valid index of the slot
table, that is, lies below `kScriptMAX`.  Their numeric values are left open:
every result below holds for each such enumeration. -/
structure ScriptEnum where
  kScriptMAX : Nat
  kScriptAcquireItem : Fin kScriptMAX
  kScriptUnacquireItem : Fin kScriptMAX
  kScriptActivateItem : Fin kScriptMAX
  kScriptEnter : Fin kScriptMAX
  kScriptExit : Fin kScriptMAX
  kScriptCutsceneAbort : Fin kScriptMAX
  kScriptHeartbeat : Fin kScriptMAX
  kScriptModuleLoad : Fin kScriptMAX
  kScriptModuleStart : Fin kScriptMAX
  kScriptPlayerChat : Fin kScriptMAX
  kScriptPlayerDeath : Fin kScriptMAX
  kScriptPlayerDying : Fin kScriptMAX
  kScriptPlayerEquipItem : Fin kScriptMAX
  kScriptPlayerUnequipItem : Fin kScriptMAX
  kScriptPlayerLevelUp : Fin kScriptMAX
  kScriptPlayerRest : Fin kScriptMAX
  kScriptPlayerRespawn : Fin kScriptMAX
  kScriptUserdefined : Fin kScriptMAX
  kScriptUsed : Fin kScriptMAX
  kScriptClick : Fin kScriptMAX
  kScriptOpen : Fin kScriptMAX
  kScriptClosed : Fin kScriptMAX
  kScriptDamaged : Fin kScriptMAX
  kScriptDeath : Fin kScriptMAX
  kScriptDisarm : Fin kScriptMAX
  kScriptLock : Fin kScriptMAX
  kScriptUnlock : Fin kScriptMAX
  kScriptAttacked : Fin kScriptMAX
  kScriptSpellCastAt : Fin kScriptMAX
  kScriptTrapTriggered : Fin kScriptMAX
  kScriptDialogue : Fin kScriptMAX
  kScriptDisturbed : Fin kScriptMAX
  kScriptEndRound : Fin kScriptMAX
  kScriptBlocked : Fin kScriptMAX
  kScriptNotice : Fin kScriptMAX
  kScriptRested : Fin kScriptMAX
  kScriptSpawn : Fin kScriptMAX
  kScriptFailToOpen : Fin kScriptMAX

/-- Modelled from the spec: one concrete `Script` enumeration, used to evaluate
the definitions on examples.  The enumerators are numbered upwards from 0 in
the order in which `kScriptNames` first names them, and `kScriptMAX` closes
the enumeration. -/
def ScriptEnum.standard : ScriptEnum where
  kScriptMAX := 38
  kScriptAcquireItem := 0
  kScriptUnacquireItem := 1
  kScriptActivateItem := 2
  kScriptEnter := 3
  kScriptExit := 4
  kScriptCutsceneAbort := 5
  kScriptHeartbeat := 6
  kScriptModuleLoad := 7
  kScriptModuleStart := 8
  kScriptPlayerChat := 9
  kScriptPlayerDeath := 10
  kScriptPlayerDying := 11
  kScriptPlayerEquipItem := 12
  kScriptPlayerUnequipItem := 13
  kScriptPlayerLevelUp := 14
  kScriptPlayerRest := 15
  kScriptPlayerRespawn := 16
  kScriptUserdefined := 17
  kScriptUsed := 18
  kScriptClick := 19
  kScriptOpen := 20
  kScriptClosed := 21
  kScriptDamaged := 22
  kScriptDeath := 23
  kScriptDisarm := 24
  kScriptLock := 25
  kScriptUnlock := 26
  kScriptAttacked := 27
  kScriptSpellCastAt := 28
  kScriptTrapTriggered := 29
  kScriptDialogue := 30
  kScriptDisturbed := 31
  kScriptEndRound := 32
  kScriptBlocked := 33
  kScriptNotice := 34
  kScriptRested := 35
  kScriptSpawn := 36
  kScriptFailToOpen := 37

/-- The entries of the alias table: `struct ScriptName`. -/
structure ScriptName (S : ScriptEnum) where
  script : Fin S.kScriptMAX
  name : String

/-- The alias table `kScriptNames`, in the order of the source. -/
def kScriptNames (S : ScriptEnum) : List (ScriptName S) := [
  ⟨S.kScriptAcquireItem      , "Mod_OnAcquirItem"⟩,
  ⟨S.kScriptUnacquireItem    , "Mod_OnUnAqreItem"⟩,
  ⟨S.kScriptActivateItem     , "Mod_OnActvtItem" ⟩,
  ⟨S.kScriptEnter            , "Mod_OnClientEntr"⟩,
  ⟨S.kScriptEnter            , "OnEnter"         ⟩,
  ⟨S.kScriptEnter            , "ScriptOnEnter"   ⟩,
  ⟨S.kScriptExit             , "Mod_OnClientLeav"⟩,
  ⟨S.kScriptExit             , "OnExit"          ⟩,
  ⟨S.kScriptExit             , "ScriptOnExit"    ⟩,
  ⟨S.kScriptCutsceneAbort    , "Mod_OnCutsnAbort"⟩,
  ⟨S.kScriptHeartbeat        , "Mod_OnHeartbeat" ⟩,
  ⟨S.kScriptHeartbeat        , "OnHeartbeat"     ⟩,
  ⟨S.kScriptHeartbeat        , "ScriptHeartbeat" ⟩,
  ⟨S.kScriptModuleLoad       , "Mod_OnModLoad"   ⟩,
  ⟨S.kScriptModuleStart      , "Mod_OnModStart"  ⟩,
  ⟨S.kScriptPlayerChat       , "Mod_OnPlrChat"   ⟩,
  ⟨S.kScriptPlayerDeath      , "Mod_OnPlrDeath"  ⟩,
  ⟨S.kScriptPlayerDying      , "Mod_OnPlrDying"  ⟩,
  ⟨S.kScriptPlayerEquipItem  , "Mod_OnPlrEqItm"  ⟩,
  ⟨S.kScriptPlayerUnequipItem, "Mod_OnPlrUnEqItm"⟩,
  ⟨S.kScriptPlayerLevelUp    , "Mod_OnPlrLvlUp"  ⟩,
  ⟨S.kScriptPlayerRest       , "Mod_OnPlrRest"   ⟩,
  ⟨S.kScriptPlayerRespawn    , "Mod_OnSpawnBtnDn"⟩,
  ⟨S.kScriptUserdefined      , "Mod_OnUsrDefined"⟩,
  ⟨S.kScriptUserdefined      , "OnUserDefined"   ⟩,
  ⟨S.kScriptUserdefined      , "ScriptUserDefine"⟩,
  ⟨S.kScriptUsed             , "OnUsed"          ⟩,
  ⟨S.kScriptClick            , "OnClick"         ⟩,
  ⟨S.kScriptOpen             , "OnOpen"          ⟩,
  ⟨S.kScriptClosed           , "OnClosed"        ⟩,
  ⟨S.kScriptDamaged          , "OnDamaged"       ⟩,
  ⟨S.kScriptDamaged          , "ScriptDamaged"   ⟩,
  ⟨S.kScriptDeath            , "OnDeath"         ⟩,
  ⟨S.kScriptDeath            , "ScriptDeath"     ⟩,
  ⟨S.kScriptDisarm           , "OnDisarm"        ⟩,
  ⟨S.kScriptLock             , "OnLock"          ⟩,
  ⟨S.kScriptUnlock           , "OnUnlock"        ⟩,
  ⟨S.kScriptAttacked         , "OnMeleeAttacked" ⟩,
  ⟨S.kScriptAttacked         , "ScriptAttacked"  ⟩,
  ⟨S.kScriptSpellCastAt      , "OnSpellCastAt"   ⟩,
  ⟨S.kScriptSpellCastAt      , "ScriptSpellAt"   ⟩,
  ⟨S.kScriptTrapTriggered    , "OnTrapTriggered" ⟩,
  ⟨S.kScriptDialogue         , "ScriptDialogue"  ⟩,
  ⟨S.kScriptDisturbed        , "ScriptDisturbed" ⟩,
  ⟨S.kScriptEndRound         , "ScriptEndRound"  ⟩,
  ⟨S.kScriptBlocked          , "ScriptOnBlocked" ⟩,
  ⟨S.kScriptNotice           , "ScriptOnNotice"  ⟩,
  ⟨S.kScriptRested           , "ScriptRested"    ⟩,
  ⟨S.kScriptSpawn            , "ScriptSpawn"     ⟩,
  ⟨S.kScriptFailToOpen       , "OnFailToOpen"    ⟩]

/-- Modelled from the spec: `Aurora::GFF3Struct` of `gff3file.h`, which is not
part of the sources at hand: "a structured key/value data record ... queried
by a set of known string field names".  `field n` is the string stored under
the field name `n`, or `none` when the record has no such field. -/
structure GFF3Struct where
  field : String → Option String

/-- Modelled from the spec: `GFF3Struct::getString(field, def)`, "lookups fall
back to the existing value when the field is absent". -/
def GFF3Struct.getString (gff : GFF3Struct) (field : String) (dflt : String) : String :=
  match gff.field field with
  | some value => value
  | none => dflt

/-- Ways in which a call fails to return normally. -/
inductive Error where
  /-- An `assert` failed. -/
  | assertion
  /-- A C++ exception left the function. -/
  | exception
  deriving DecidableEq, Repr

/-- The member `Common::UString _scripts[kScriptMAX]`. -/
structure ScriptContainer (S : ScriptEnum) where
  _scripts : Fin S.kScriptMAX → String

namespace ScriptContainer

variable {S : ScriptEnum}

/-- The assignment `_scripts[i] = value`. -/
def setSlot (c : ScriptContainer S) (i : Fin S.kScriptMAX) (value : String) :
    ScriptContainer S :=
  ⟨Function.update c._scripts i value⟩

/-- The source function `ScriptContainer::getScript`. -/
def getScript (c : ScriptContainer S) (script : Int) : Except Error String :=
  if h : 0 ≤ script ∧ script < (S.kScriptMAX : Int) then
    .ok (c._scripts ⟨script.toNat, by omega⟩)
  else
    .error Error.assertion

/-- The source function `ScriptContainer::hasScript`. -/
def hasScript (c : ScriptContainer S) (script : Int) : Except Error Bool :=
  match c.getScript script with
  | .ok name => .ok (!decide (name = ""))
  | .error e => .error e

/-- The source function `ScriptContainer::clearScripts`. -/
def clearScripts (c : ScriptContainer S) : ScriptContainer S :=
  (List.finRange S.kScriptMAX).foldl (fun acc i => acc.setSlot i "") c

/-- The source function `ScriptContainer::readScripts(const Aurora::GFF3Struct &)`. -/
def readScripts (c : ScriptContainer S) (gff : GFF3Struct) : ScriptContainer S :=
  (kScriptNames S).foldl
    (fun acc entry => acc.setSlot entry.script (gff.getString entry.name (acc._scripts entry.script)))
    c.clearScripts

/-- The source function `ScriptContainer::readScripts(const ScriptContainer &)`. -/
def readScriptsFrom (c : ScriptContainer S) (container : ScriptContainer S) :
    ScriptContainer S :=
  (List.finRange S.kScriptMAX).foldl (fun acc i => acc.setSlot i (container._scripts i)) c

end ScriptContainer

/-! ## The script engine, as far as `runScript` uses it -/

/-- The C++ type `float`, an IEEE 754 binary32 number, as its bit fields:
sign bit, 8 bits of biased exponent, 23 bits of mantissa. -/
structure Float32 where
  sign : Bool
  exponent : Fin 256
  mantissa : Fin 8388608
  deriving DecidableEq

namespace Float32

/-- The literal `0.0f`. -/
def zero : Float32 := ⟨false, 0, 0⟩

/-- The value is a NaN: all exponent bits set and a non-zero mantissa. -/
def isNaN (x : Float32) : Bool := decide (x.exponent = 255) && !decide (x.mantissa = 0)

/-- The value is a zero of either sign. -/
def isZero (x : Float32) : Bool := decide (x.exponent = 0) && decide (x.mantissa = 0)

/-- The comparison `x == y` of IEEE 754: a NaN equals nothing, the two zeros
are equal, every other value is equal to itself only. -/
def eq (x y : Float32) : Bool :=
  !x.isNaN && !y.isNaN && ((x.isZero && y.isZero) || decide (x = y))

/-- The comparison `x != y` of C++. -/
def ne (x y : Float32) : Bool := !eq x y

end Float32

/-- Modelled from the spec: `Aurora::NWScript::Type` of `types.h`, which is not
part of the sources at hand.  The source names `kTypeInt` and `kTypeFloat`;
`other tag` stands for each further type of a value ("any other return type
(including none)"). -/
inductive VariableType where
  | kTypeInt
  | kTypeFloat
  | other (tag : Nat)
  deriving DecidableEq

/-- Modelled from the spec: `Aurora::NWScript::Variable` of `variable.h`, "a
typed result value", seen through the three accessors `runScript` calls. -/
structure Variable where
  getType : VariableType
  getInt : Int
  getFloat : Float32

/-- What `runScript` does to the outside, in the order it happens. -/
inductive Event (ScriptState Object : Type) where
  /-- The constructor call `NCSFile ncs(script)`. -/
  | load (script : String)
  /-- The call `ncs.run(state, owner, triggerer)` on the file of `script`. -/
  | run (script : String) (state : ScriptState) (owner triggerer : Object)
  /-- A call of `Common::exceptionDispatcherWarning` that prints `text`. -/
  | warning (text : String)
  deriving DecidableEq

/-- The state `runScript` runs in: the state of the script engine and of the
game world it acts on, and the events so far. -/
structure Machine (World ScriptState Object : Type) where
  world : World
  trace : List (Event ScriptState Object)

/-- Append an event to the trace. -/
def Machine.record {World ScriptState Object : Type} (m : Machine World ScriptState Object)
    (e : Event ScriptState Object) : Machine World ScriptState Object :=
  { m with trace := m.trace ++ [e] }

/-- Modelled from the spec: `Aurora::NWScript::NCSFile` of `ncsfile.h`, the
"external script-loading-and-execution engine" that "returns a typed result
value and may raise an error".  Each operation acts on the world and either
returns or throws an exception of type `Exc`. -/
structure NCSEngine (World ScriptState Object Exc NCSFile : Type) where
  /-- `NCSFile::getEmptyState()`. -/
  getEmptyState : ScriptState
  /-- The constructor `NCSFile(script)`. -/
  load : String → World → Except Exc NCSFile × World
  /-- `NCSFile::run(state, owner, triggerer)`. -/
  run : NCSFile → ScriptState → Object → Object → World → Except Exc Variable × World

/-- Modelled from the spec: the text `Common::exceptionDispatcherWarning`
prints for the format `"Failed running script \"%s\""` and the argument
`script`, a "warning message containing the script's name". -/
def failedRunningScript (script : String) : String :=
  "Failed running script \"" ++ script ++ "\""

namespace ScriptContainer

variable {S : ScriptEnum} {World ScriptState Object Exc NCSFile : Type}

/-- The `try` block of `runScript`: load the script, run it, and interpret
the value it returns. -/
def runScriptTry (E : NCSEngine World ScriptState Object Exc NCSFile) (script : String)
    (state : ScriptState) (owner triggerer : Object) (m : Machine World ScriptState Object) :
    Except Exc Bool × Machine World ScriptState Object :=
  let m₁ := m.record (.load script)
  match E.load script m₁.world with
  | (.error e, w₁) => (.error e, { m₁ with world := w₁ })
  | (.ok ncs, w₁) =>
    let m₂ := ({ m₁ with world := w₁ } : Machine World ScriptState Object).record
      (.run script state owner triggerer)
    match E.run ncs state owner triggerer m₂.world with
    | (.error e, w₂) => (.error e, { m₂ with world := w₂ })
    | (.ok retVal, w₂) =>
      if retVal.getType = VariableType.kTypeInt then
        (.ok (decide (retVal.getInt ≠ 0)), { m₂ with world := w₂ })
      else if retVal.getType = VariableType.kTypeFloat then
        (.ok (Float32.ne retVal.getFloat Float32.zero), { m₂ with world := w₂ })
      else
        (.ok true, { m₂ with world := w₂ })

/-- The source function `ScriptContainer::runScript(const Common::UString &,
const ScriptState &, Object *, Object *)`. -/
def runScript (E : NCSEngine World ScriptState Object Exc NCSFile) (script : String)
    (state : ScriptState) (owner triggerer : Object) (m : Machine World ScriptState Object) :
    Except Error Bool × Machine World ScriptState Object :=
  if script = "" then
    (.ok true, m)
  else
    match runScriptTry E script state owner triggerer m with
    | (.ok result, m₁) => (.ok result, m₁)
    | (.error _, m₁) => (.ok false, m₁.record (.warning (failedRunningScript script)))

/-- The source function `ScriptContainer::runScript(const Common::UString &,
Object *, Object *)`. -/
def runScriptName (E : NCSEngine World ScriptState Object Exc NCSFile) (script : String)
    (owner triggerer : Object) (m : Machine World ScriptState Object) :
    Except Error Bool × Machine World ScriptState Object :=
  runScript E script E.getEmptyState owner triggerer m

/-- The source function `ScriptContainer::runScript(Script, Object *, Object *)`. -/
def runScriptEvent (c : ScriptContainer S) (E : NCSEngine World ScriptState Object Exc NCSFile)
    (script : Int) (owner triggerer : Object) (m : Machine World ScriptState Object) :
    Except Error Bool × Machine World ScriptState Object :=
  match c.getScript script with
  | .ok name => runScriptName E name owner triggerer m
  | .error e => (.error e, m)

end ScriptContainer

/-! ## Specification-side definitions -/

/-- The value the claim on `readScripts` names for the event kind `k`: the
record's value for the last entry of `kScriptNames`, in table order, whose
event kind is `k` and whose field name is present in the record; the empty
string when there is no such entry. -/
def lastAliasValue (S : ScriptEnum) (gff : GFF3Struct) (k : Fin S.kScriptMAX) : String :=
  match ((kScriptNames S).filter
      (fun entry => decide (entry.script = k) && (gff.field entry.name).isSome)).getLast? with
  | some entry => (gff.field entry.name).getD ""
  | none => ""

/-- The texts of the warnings printed so far, oldest first. -/
def Machine.warnings {World ScriptState Object : Type} (m : Machine World ScriptState Object) :
    List String :=
  m.trace.filterMap fun
    | .warning text => some text
    | _ => none

/-! ## Concrete inputs, for evaluating the definitions -/

namespace Example

/-- A container over the standard enumeration with every slot bound. -/
def full : ScriptContainer ScriptEnum.standard :=
  ⟨fun i => "old" ++ toString i.val⟩

/-- A container with `nw_enter` bound to `kScriptEnter` and nothing else. -/
def enterOnly : ScriptContainer ScriptEnum.standard :=
  ⟨fun i => if i = ScriptEnum.standard.kScriptEnter then "nw_enter" else ""⟩

/-- A record with two aliases of `kScriptEnter` and one of `kScriptDeath`. -/
def record : GFF3Struct :=
  ⟨fun n =>
    if n = "OnEnter" then some "a"
    else if n = "ScriptOnEnter" then some "b"
    else if n = "OnDeath" then some "d"
    else none⟩

/-- The float `1.0f`: biased exponent 127, mantissa 0. -/
def one : Float32 := ⟨false, 127, 0⟩

/-- The float `-0.0f`. -/
def negZero : Float32 := ⟨true, 0, 0⟩

/-- A quiet NaN. -/
def nan : Float32 := ⟨false, 255, 4194304⟩

/-- An engine whose world is the number of engine calls made so far.  The
script `missing` fails to load, `crash` throws when run, and the other
scripts return a value that depends on their name. -/
def engine : NCSEngine Nat Nat Nat String String where
  getEmptyState := 0
  load script w :=
    if script = "missing" then (.error "script not found", w + 1) else (.ok script, w + 1)
  run ncs _ _ _ w :=
    if ncs = "crash" then (.error "stack underflow", w + 1)
    else if ncs = "int0" then (.ok ⟨.kTypeInt, 0, Float32.zero⟩, w + 1)
    else if ncs = "int5" then (.ok ⟨.kTypeInt, 5, Float32.zero⟩, w + 1)
    else if ncs = "intneg" then (.ok ⟨.kTypeInt, -1, Float32.zero⟩, w + 1)
    else if ncs = "float0" then (.ok ⟨.kTypeFloat, 7, Float32.zero⟩, w + 1)
    else if ncs = "floatneg0" then (.ok ⟨.kTypeFloat, 7, negZero⟩, w + 1)
    else if ncs = "float1" then (.ok ⟨.kTypeFloat, 0, one⟩, w + 1)
    else if ncs = "floatnan" then (.ok ⟨.kTypeFloat, 0, nan⟩, w + 1)
    else (.ok ⟨.other 0, 0, Float32.zero⟩, w + 1)

/-- A machine that has seen one warning already. -/
def machine : Machine Nat Nat Nat :=
  ⟨0, [.warning "earlier"]⟩

end Example

/-! ## Lemmas on the slot table -/

namespace ScriptContainer

variable {S : ScriptEnum} {World ScriptState Object Exc NCSFile : Type}

theorem ext_scripts {c₁ c₂ : ScriptContainer S}
    (h : ∀ k, c₁._scripts k = c₂._scripts k) : c₁ = c₂ := by
  cases c₁; cases c₂
  congr
  exact funext h

theorem setSlot_same (c : ScriptContainer S) (i : Fin S.kScriptMAX) (v : String) :
    (c.setSlot i v)._scripts i = v := by
  simp [setSlot]

theorem setSlot_other (c : ScriptContainer S) {i k : Fin S.kScriptMAX} (v : String)
    (h : k ≠ i) : (c.setSlot i v)._scripts k = c._scripts k := by
  simp [setSlot, Function.update_noteq h]

/-- A loop that assigns `g i` to slot `i` for each index `i` of `l`. -/
theorem foldl_setSlot (g : Fin S.kScriptMAX → String) (l : List (Fin S.kScriptMAX))
    (c : ScriptContainer S) (k : Fin S.kScriptMAX) :
    (l.foldl (fun acc i => acc.setSlot i (g i)) c)._scripts k
      = if k ∈ l then g k else c._scripts k := by
  induction l generalizing c with
  | nil => simp
  | cons i l ih =>
    rw [List.foldl_cons, ih]
    by_cases hk : k ∈ l
    · simp [hk]
    · by_cases hki : k = i
      · subst hki; simp [hk, setSlot_same]
      · simp [hk, hki, setSlot_other]

theorem clearScripts_scripts (c : ScriptContainer S) (k : Fin S.kScriptMAX) :
    c.clearScripts._scripts k = "" := by
  unfold clearScripts
  rw [foldl_setSlot (fun _ => "")]
  simp [List.mem_finRange]

theorem readScriptsFrom_scripts (c container : ScriptContainer S) (k : Fin S.kScriptMAX) :
    (c.readScriptsFrom container)._scripts k = container._scripts k := by
  unfold readScriptsFrom
  rw [foldl_setSlot (fun i => container._scripts i)]
  simp [List.mem_finRange]

theorem getScript_valid (c : ScriptContainer S) (k : Fin S.kScriptMAX) :
    c.getScript (k.val : Int) = .ok (c._scripts k) := by
  have hk : (0 : Int) ≤ (k.val : Int) ∧ (k.val : Int) < (S.kScriptMAX : Int) :=
    ⟨Int.ofNat_nonneg _, by exact_mod_cast k.isLt⟩
  simp [getScript, hk]

theorem getScript_invalid (c : ScriptContainer S) (k : Int)
    (hk : ¬ (0 ≤ k ∧ k < (S.kScriptMAX : Int))) :
    c.getScript k = .error Error.assertion := by
  simp only [getScript, dif_neg hk]

/-- The loop of `readScripts(const GFF3Struct &)` over any table `l`, started
in any container: slot `k` ends with the value of the last entry of `l` for
`k` whose field is present, and keeps its value when there is none. -/
theorem foldl_aliases (gff : GFF3Struct) (l : List (ScriptName S)) (c : ScriptContainer S)
    (k : Fin S.kScriptMAX) :
    (l.foldl (fun acc entry =>
        acc.setSlot entry.script (gff.getString entry.name (acc._scripts entry.script))) c)._scripts k
      = match (l.filter
          (fun entry => decide (entry.script = k) && (gff.field entry.name).isSome)).getLast? with
        | some entry => (gff.field entry.name).getD ""
        | none => c._scripts k := by
  induction l using List.reverseRecOn with
  | nil => simp
  | append_singleton l e ih =>
    rw [List.foldl_append, List.filter_append]
    simp only [List.foldl_cons, List.foldl_nil]
    by_cases hk : e.script = k
    · subst hk
      cases hf : gff.field e.name with
      | none =>
        simp [List.filter_cons, hf, GFF3Struct.getString, setSlot_same]
        simpa using ih
      | some v =>
        simp [List.filter_cons, hf, GFF3Struct.getString, setSlot_same]
    · have hk2 : k ≠ e.script := fun h => hk h.symm
      simp [List.filter_cons, hk, setSlot_other _ _ hk2]
      simpa using ih

theorem readScripts_scripts (c : ScriptContainer S) (gff : GFF3Struct) (k : Fin S.kScriptMAX) :
    (c.readScripts gff)._scripts k = lastAliasValue S gff k := by
  unfold readScripts lastAliasValue
  rw [foldl_aliases]
  cases ((kScriptNames S).filter
      (fun entry => decide (entry.script = k) && (gff.field entry.name).isSome)).getLast? with
  | none => simp [clearScripts_scripts]
  | some e => rfl

/-! ## Lemmas on the dispatcher -/

theorem runScriptTry_ok (E : NCSEngine World ScriptState Object Exc NCSFile) (script : String)
    (state : ScriptState) (owner triggerer : Object) (m : Machine World ScriptState Object)
    (ncs : NCSFile) (w₁ w₂ : World) (retVal : Variable)
    (hload : E.load script m.world = (.ok ncs, w₁))
    (hrun : E.run ncs state owner triggerer w₁ = (.ok retVal, w₂)) :
    runScriptTry E script state owner triggerer m
      = (.ok (if retVal.getType = VariableType.kTypeInt then decide (retVal.getInt ≠ 0)
              else if retVal.getType = VariableType.kTypeFloat then
                Float32.ne retVal.getFloat Float32.zero
              else true),
         ⟨w₂, m.trace ++ [.load script] ++ [.run script state owner triggerer]⟩) := by
  simp only [runScriptTry, Machine.record, hload, hrun]
  split_ifs <;> rfl

theorem runScriptTry_load_error (E : NCSEngine World ScriptState Object Exc NCSFile)
    (script : String) (state : ScriptState) (owner triggerer : Object)
    (m : Machine World ScriptState Object) (e : Exc) (w₁ : World)
    (hload : E.load script m.world = (.error e, w₁)) :
    runScriptTry E script state owner triggerer m
      = (.error e, ⟨w₁, m.trace ++ [.load script]⟩) := by
  simp only [runScriptTry, Machine.record, hload]

theorem runScriptTry_run_error (E : NCSEngine World ScriptState Object Exc NCSFile)
    (script : String) (state : ScriptState) (owner triggerer : Object)
    (m : Machine World ScriptState Object) (ncs : NCSFile) (e : Exc) (w₁ w₂ : World)
    (hload : E.load script m.world = (.ok ncs, w₁))
    (hrun : E.run ncs state owner triggerer w₁ = (.error e, w₂)) :
    runScriptTry E script state owner triggerer m
      = (.error e, ⟨w₂, m.trace ++ [.load script] ++ [.run script state owner triggerer]⟩) := by
  simp only [runScriptTry, Machine.record, hload, hrun]

theorem float_eq_zero_iff (x : Float32) :
    Float32.eq x Float32.zero = true ↔ x.exponent = 0 ∧ x.mantissa = 0 := by
  obtain ⟨s, e, f⟩ := x
  constructor
  · intro h
    simp only [Float32.eq, Float32.isNaN, Float32.isZero, Float32.zero, Bool.and_eq_true,
      Bool.or_eq_true, Bool.not_eq_true', decide_eq_true_eq, Float32.mk.injEq] at h
    rcases h.2 with h2 | h2
    · exact h2.1
    · exact ⟨h2.2.1, h2.2.2⟩
  · rintro ⟨he, hf⟩
    simp only at he hf
    subst he; subst hf
    simp [Float32.eq, Float32.isNaN, Float32.isZero, Float32.zero]

/-! ## The container: `getScript`, `clearScripts`, `readScripts` -/

/-- C1: after `readScripts(record)`, from any prior container state, `getScript(k)`
returns for every valid event kind `k` the record's value for the last entry of
`kScriptNames`, in table order, whose event kind is `k` and whose field name is
present in the record, and the empty string when no alias of `k` is present. -/
theorem readScripts_last_alias_wins (c : ScriptContainer S) (gff : GFF3Struct)
    (k : Fin S.kScriptMAX) :
    (c.readScripts gff).getScript (k.val : Int) = .ok (lastAliasValue S gff k) := by
  rw [getScript_valid, readScripts_scripts]

/-- The example of the spec: a record with `OnEnter = "a"` and
`ScriptOnEnter = "b"` leaves `kScriptEnter` bound to `"b"`, whatever was bound
before; an event kind without a present alias ends up unbound. -/
theorem readScripts_example :
    (Example.full.readScripts Example.record).getScript
        (ScriptEnum.standard.kScriptEnter.val : Int) = .ok "b"
    ∧ (Example.full.readScripts Example.record).getScript
        (ScriptEnum.standard.kScriptDeath.val : Int) = .ok "d"
    ∧ (Example.full.readScripts Example.record).getScript
        (ScriptEnum.standard.kScriptExit.val : Int) = .ok "" := by
  refine ⟨?_, ?_, ?_⟩ <;> rfl

/-- C5: after `readScripts(source)`, `getScript(k)` on the destination equals
`getScript(k)` on the source for every valid event kind `k`, whatever the
destination held before. -/
theorem readScriptsFrom_copies (c container : ScriptContainer S) (k : Fin S.kScriptMAX) :
    (c.readScriptsFrom container).getScript (k.val : Int)
      = container.getScript (k.val : Int) := by
  rw [getScript_valid, getScript_valid, readScriptsFrom_scripts]

/-- C6: after `clearScripts()`, for every container state and every valid event
kind `k`, `getScript(k)` returns the empty string and `hasScript(k)` is false. -/
theorem clearScripts_unbinds (c : ScriptContainer S) (k : Fin S.kScriptMAX) :
    c.clearScripts.getScript (k.val : Int) = .ok ""
    ∧ c.clearScripts.hasScript (k.val : Int) = .ok false := by
  have h : c.clearScripts.getScript (k.val : Int) = .ok "" := by
    rw [getScript_valid, clearScripts_scripts]
  refine ⟨h, ?_⟩
  simp only [hasScript, h]
  rfl

/-- C7: `getScript(k)` returns a name exactly when `0 <= k < kScriptMAX`, and the
name is the one stored in slot `k`; for every other `k` the assertion fails and
no name is returned, and `hasScript(k)` and `runScript(k, owner, triggerer)`
fail on the same assertion, without reaching the engine. -/
theorem getScript_range (c : ScriptContainer S)
    (E : NCSEngine World ScriptState Object Exc NCSFile) (k : Int) (owner triggerer : Object)
    (m : Machine World ScriptState Object) :
    ((∃ name, c.getScript k = .ok name) ↔ (0 ≤ k ∧ k < (S.kScriptMAX : Int)))
    ∧ (∀ h : 0 ≤ k ∧ k < (S.kScriptMAX : Int),
        c.getScript k = .ok (c._scripts ⟨k.toNat, by omega⟩))
    ∧ (¬ (0 ≤ k ∧ k < (S.kScriptMAX : Int)) →
        c.getScript k = .error Error.assertion
        ∧ c.hasScript k = .error Error.assertion
        ∧ c.runScriptEvent E k owner triggerer m = (.error Error.assertion, m)) := by
  refine ⟨⟨?_, ?_⟩, ?_, ?_⟩
  · rintro ⟨name, hname⟩
    by_contra hk
    rw [getScript_invalid c k hk] at hname
    cases hname
  · intro hk
    exact ⟨c._scripts ⟨k.toNat, by omega⟩, by simp only [getScript, dif_pos hk]⟩
  · intro hk
    simp only [getScript, dif_pos hk]
  · intro hk
    have h := getScript_invalid c k hk
    refine ⟨h, ?_, ?_⟩
    · simp only [hasScript, h]
    · simp only [runScriptEvent, h]

/-- Evaluation of `getScript_range` on the standard enumeration: slot 3 is
read, and the values `-1` and `38 = kScriptMAX` fail the assertion. -/
theorem getScript_range_witness :
    Example.enterOnly.getScript 3 = .ok "nw_enter"
    ∧ Example.enterOnly.getScript (-1) = .error Error.assertion
    ∧ Example.enterOnly.hasScript 38 = .error Error.assertion
    ∧ Example.enterOnly.runScriptEvent Example.engine 38 1 2 Example.machine
        = (.error Error.assertion, Example.machine) :=
  ⟨(getScript_range Example.enterOnly Example.engine 3 1 2 Example.machine).2.1
      (by decide),
   ((getScript_range Example.enterOnly Example.engine (-1) 1 2 Example.machine).2.2
      (by decide)).1,
   ((getScript_range Example.enterOnly Example.engine 38 1 2 Example.machine).2.2
      (by decide)).2.1,
   ((getScript_range Example.enterOnly Example.engine 38 1 2 Example.machine).2.2
      (by decide)).2.2⟩

/-- C10: the bindings after `readScripts(record)` depend only on the record: any
two prior container states give the same container, hence the same
`getScript(k)` for every event kind `k`; reading the same record twice is the
same as reading it once; and an event kind whose aliases are all absent from
the record ends up unbound, whatever was bound to it before. -/
theorem readScripts_forgets_prior (c₁ c₂ : ScriptContainer S) (gff : GFF3Struct) :
    c₁.readScripts gff = c₂.readScripts gff
    ∧ (∀ k : Fin S.kScriptMAX,
        (c₁.readScripts gff).getScript (k.val : Int)
          = (c₂.readScripts gff).getScript (k.val : Int))
    ∧ (c₁.readScripts gff).readScripts gff = c₁.readScripts gff
    ∧ (∀ k : Fin S.kScriptMAX,
        (∀ entry ∈ kScriptNames S, entry.script = k → gff.field entry.name = none) →
        (c₁.readScripts gff).getScript (k.val : Int) = .ok "") := by
  have h : ∀ a b : ScriptContainer S, a.readScripts gff = b.readScripts gff := by
    intro a b
    apply ext_scripts
    intro k
    rw [readScripts_scripts, readScripts_scripts]
  refine ⟨h _ _, ?_, h _ _, ?_⟩
  · intro k
    rw [h c₁ c₂]
  · intro k habsent
    rw [getScript_valid, readScripts_scripts]
    have hnil : (kScriptNames S).filter
        (fun entry => decide (entry.script = k) && (gff.field entry.name).isSome) = [] := by
      rw [List.filter_eq_nil_iff]
      intro entry hmem
      by_cases hk : entry.script = k
      · simp [hk, habsent entry hmem hk]
      · simp [hk]
    simp only [lastAliasValue, hnil, List.getLast?_nil]

/-- Evaluation of `readScripts_forgets_prior`: the example record has no alias
of `kScriptExit`, and reading it into a container with every slot bound or
into one with a single slot bound leaves `kScriptExit` unbound. -/
theorem readScripts_forgets_prior_witness :
    Example.full.readScripts Example.record = Example.enterOnly.readScripts Example.record
    ∧ (Example.full.readScripts Example.record).getScript
        (ScriptEnum.standard.kScriptExit.val : Int) = .ok "" :=
  ⟨(readScripts_forgets_prior Example.full Example.enterOnly Example.record).1,
   (readScripts_forgets_prior Example.full Example.enterOnly Example.record).2.2.2
      ScriptEnum.standard.kScriptExit (by decide)⟩

/-! ## The dispatcher: `runScript` -/

/-- C4: `runScript` with the empty script name returns true, for every engine,
execution state, owner and triggerer, and does not reach the engine: the
engine state is untouched, the trace gains no load, no run and no warning, and
the outcome is the same for any other engine. -/
theorem runScript_empty_name (E E₂ : NCSEngine World ScriptState Object Exc NCSFile)
    (state : ScriptState) (owner triggerer : Object) (m : Machine World ScriptState Object) :
    (runScript E "" state owner triggerer m).1 = .ok true
    ∧ (runScript E "" state owner triggerer m).2.world = m.world
    ∧ (runScript E "" state owner triggerer m).2.trace = m.trace
    ∧ (runScript E "" state owner triggerer m).2.warnings = m.warnings
    ∧ runScript E "" state owner triggerer m = runScript E₂ "" state owner triggerer m := by
  have h : ∀ F : NCSEngine World ScriptState Object Exc NCSFile,
      runScript F "" state owner triggerer m = (.ok true, m) := by
    intro F
    unfold runScript
    exact if_pos rfl
  rw [h E, h E₂]
  exact ⟨rfl, rfl, rfl, rfl, rfl⟩

/-- C2: for a non-empty script name that the engine loads and runs without
raising, `runScript` returns false when the returned value is the integer 0,
true when it is a non-zero integer, and true when its type is neither integer
nor floating-point. -/
theorem runScript_return_value (E : NCSEngine World ScriptState Object Exc NCSFile)
    (script : String) (state : ScriptState) (owner triggerer : Object)
    (m : Machine World ScriptState Object) (ncs : NCSFile) (w₁ w₂ : World) (retVal : Variable)
    (hname : script ≠ "")
    (hload : E.load script m.world = (.ok ncs, w₁))
    (hrun : E.run ncs state owner triggerer w₁ = (.ok retVal, w₂)) :
    (retVal.getType = VariableType.kTypeInt → retVal.getInt = 0 →
        (runScript E script state owner triggerer m).1 = .ok false)
    ∧ (retVal.getType = VariableType.kTypeInt → retVal.getInt ≠ 0 →
        (runScript E script state owner triggerer m).1 = .ok true)
    ∧ (retVal.getType ≠ VariableType.kTypeInt → retVal.getType ≠ VariableType.kTypeFloat →
        (runScript E script state owner triggerer m).1 = .ok true) := by
  have h := runScriptTry_ok E script state owner triggerer m ncs w₁ w₂ retVal hload hrun
  simp only [runScript, if_neg hname, h]
  refine ⟨?_, ?_, ?_⟩
  · intro ht hv
    simp [ht, hv]
  · intro ht hv
    simp [ht, hv]
  · intro ht hf
    simp [ht, hf]

/-- Evaluation of `runScript_return_value`: the scripts `int0`, `int5`, `intneg`
and `void` of the example engine. -/
theorem runScript_return_value_witness :
    (runScript Example.engine "int0" 0 1 2 Example.machine).1 = .ok false
    ∧ (runScript Example.engine "int5" 0 1 2 Example.machine).1 = .ok true
    ∧ (runScript Example.engine "intneg" 0 1 2 Example.machine).1 = .ok true
    ∧ (runScript Example.engine "void" 0 1 2 Example.machine).1 = .ok true :=
  ⟨(runScript_return_value Example.engine "int0" 0 1 2 Example.machine "int0" 1 2
      ⟨.kTypeInt, 0, Float32.zero⟩ (by decide) rfl rfl).1 rfl rfl,
   (runScript_return_value Example.engine "int5" 0 1 2 Example.machine "int5" 1 2
      ⟨.kTypeInt, 5, Float32.zero⟩ (by decide) rfl rfl).2.1 rfl (by decide),
   (runScript_return_value Example.engine "intneg" 0 1 2 Example.machine "intneg" 1 2
      ⟨.kTypeInt, -1, Float32.zero⟩ (by decide) rfl rfl).2.1 rfl (by decide),
   (runScript_return_value Example.engine "void" 0 1 2 Example.machine "void" 1 2
      ⟨.other 0, 0, Float32.zero⟩ (by decide) rfl rfl).2.2 (by decide) (by decide)⟩

/-- C8: for a non-empty script name for which the engine returns a
floating-point value without raising, `runScript` returns true iff the value
does not compare equal to `0.0f`, that is, iff it is not a zero of either
sign; a returned `0.0f` makes it return false. -/
theorem runScript_float (E : NCSEngine World ScriptState Object Exc NCSFile)
    (script : String) (state : ScriptState) (owner triggerer : Object)
    (m : Machine World ScriptState Object) (ncs : NCSFile) (w₁ w₂ : World) (retVal : Variable)
    (hname : script ≠ "")
    (hload : E.load script m.world = (.ok ncs, w₁))
    (hrun : E.run ncs state owner triggerer w₁ = (.ok retVal, w₂))
    (hfloat : retVal.getType = VariableType.kTypeFloat) :
    (runScript E script state owner triggerer m).1
        = .ok (!Float32.eq retVal.getFloat Float32.zero)
    ∧ ((runScript E script state owner triggerer m).1 = .ok true
        ↔ ¬ (retVal.getFloat.exponent = 0 ∧ retVal.getFloat.mantissa = 0))
    ∧ (retVal.getFloat = Float32.zero →
        (runScript E script state owner triggerer m).1 = .ok false) := by
  have h := runScriptTry_ok E script state owner triggerer m ncs w₁ w₂ retVal hload hrun
  have hr : (runScript E script state owner triggerer m).1
      = .ok (!Float32.eq retVal.getFloat Float32.zero) := by
    simp [runScript, if_neg hname, h, hfloat, Float32.ne]
  refine ⟨hr, ?_, ?_⟩
  · rw [hr, ← float_eq_zero_iff]
    cases Float32.eq retVal.getFloat Float32.zero <;> simp
  · intro hz
    rw [hr, hz]
    rfl

/-- Evaluation of `runScript_float`: the example engine returns `0.0f`, `-0.0f`,
`1.0f` and a NaN. -/
theorem runScript_float_witness :
    (runScript Example.engine "float0" 0 1 2 Example.machine).1 = .ok false
    ∧ (runScript Example.engine "floatneg0" 0 1 2 Example.machine).1 = .ok false
    ∧ (runScript Example.engine "float1" 0 1 2 Example.machine).1 = .ok true
    ∧ (runScript Example.engine "floatnan" 0 1 2 Example.machine).1 = .ok true :=
  ⟨(runScript_float Example.engine "float0" 0 1 2 Example.machine "float0" 1 2
      ⟨.kTypeFloat, 7, Float32.zero⟩ (by decide) rfl rfl rfl).2.2 rfl,
   (runScript_float Example.engine "floatneg0" 0 1 2 Example.machine "floatneg0" 1 2
      ⟨.kTypeFloat, 7, Example.negZero⟩ (by decide) rfl rfl rfl).1,
   (runScript_float Example.engine "float1" 0 1 2 Example.machine "float1" 1 2
      ⟨.kTypeFloat, 0, Example.one⟩ (by decide) rfl rfl rfl).1,
   (runScript_float Example.engine "floatnan" 0 1 2 Example.machine "floatnan" 1 2
      ⟨.kTypeFloat, 0, Example.nan⟩ (by decide) rfl rfl rfl).1⟩

/-- C3: for a non-empty script name, if loading the script or running it raises
an error, `runScript` returns false as a plain boolean (no error leaves it),
and it emits exactly one warning, whose text contains the script name. -/
theorem runScript_engine_raises (E : NCSEngine World ScriptState Object Exc NCSFile)
    (script : String) (state : ScriptState) (owner triggerer : Object)
    (m : Machine World ScriptState Object) (e : Exc)
    (hname : script ≠ "")
    (hraise : (∃ w₁, E.load script m.world = (.error e, w₁))
      ∨ (∃ ncs w₁ w₂, E.load script m.world = (.ok ncs, w₁)
          ∧ E.run ncs state owner triggerer w₁ = (.error e, w₂))) :
    (runScript E script state owner triggerer m).1 = .ok false
    ∧ (runScript E script state owner triggerer m).2.warnings
        = m.warnings ++ [failedRunningScript script]
    ∧ (∃ before after, failedRunningScript script = before ++ script ++ after) := by
  refine ⟨?_, ?_, ⟨"Failed running script \"", "\"", rfl⟩⟩
  · rcases hraise with ⟨w₁, hload⟩ | ⟨ncs, w₁, w₂, hload, hrun⟩
    · simp [runScript, if_neg hname,
        runScriptTry_load_error E script state owner triggerer m e w₁ hload]
    · simp [runScript, if_neg hname,
        runScriptTry_run_error E script state owner triggerer m ncs e w₁ w₂ hload hrun]
  · rcases hraise with ⟨w₁, hload⟩ | ⟨ncs, w₁, w₂, hload, hrun⟩
    · simp [runScript, if_neg hname, Machine.warnings, Machine.record,
        runScriptTry_load_error E script state owner triggerer m e w₁ hload,
        List.filterMap_append]
    · simp [runScript, if_neg hname, Machine.warnings, Machine.record,
        runScriptTry_run_error E script state owner triggerer m ncs e w₁ w₂ hload hrun,
        List.filterMap_append]

/-- Evaluation of `runScript_engine_raises`: the script `missing` fails to load
and the script `crash` throws while it runs. -/
theorem runScript_engine_raises_witness :
    ((runScript Example.engine "missing" 0 1 2 Example.machine).1 = .ok false
      ∧ (runScript Example.engine "missing" 0 1 2 Example.machine).2.warnings
          = ["earlier", "Failed running script \"missing\""])
    ∧ ((runScript Example.engine "crash" 0 1 2 Example.machine).1 = .ok false
      ∧ (runScript Example.engine "crash" 0 1 2 Example.machine).2.warnings
          = ["earlier", "Failed running script \"crash\""]) :=
  ⟨⟨(runScript_engine_raises Example.engine "missing" 0 1 2 Example.machine "script not found"
        (by decide) (Or.inl ⟨1, rfl⟩)).1,
    (runScript_engine_raises Example.engine "missing" 0 1 2 Example.machine "script not found"
        (by decide) (Or.inl ⟨1, rfl⟩)).2.1⟩,
   ⟨(runScript_engine_raises Example.engine "crash" 0 1 2 Example.machine "stack underflow"
        (by decide) (Or.inr ⟨"crash", 1, 2, rfl, rfl⟩)).1,
    (runScript_engine_raises Example.engine "crash" 0 1 2 Example.machine "stack underflow"
        (by decide) (Or.inr ⟨"crash", 1, 2, rfl, rfl⟩)).2.1⟩⟩

/-- C9: for every container, valid event kind `k`, owner and triggerer,
`runScript(k, owner, triggerer)` gives the same result and the same machine
(engine state, engine calls and warnings) as the four-argument `runScript` on
the name `getScript(k)` returns and the empty state; when no script is bound
to `k` it returns true and leaves the machine as it was. -/
theorem runScriptEvent_delegates (c : ScriptContainer S)
    (E : NCSEngine World ScriptState Object Exc NCSFile) (k : Fin S.kScriptMAX)
    (owner triggerer : Object) (m : Machine World ScriptState Object) :
    (∃ name, c.getScript (k.val : Int) = .ok name
      ∧ c.runScriptEvent E (k.val : Int) owner triggerer m
          = runScript E name E.getEmptyState owner triggerer m)
    ∧ (c.hasScript (k.val : Int) = .ok false →
        c.runScriptEvent E (k.val : Int) owner triggerer m = (.ok true, m)) := by
  have hg := getScript_valid c k
  have hrun : c.runScriptEvent E (k.val : Int) owner triggerer m
      = runScript E (c._scripts k) E.getEmptyState owner triggerer m := by
    simp only [runScriptEvent, hg, runScriptName]
  refine ⟨⟨c._scripts k, hg, hrun⟩, ?_⟩
  intro hhas
  simp only [hasScript, hg] at hhas
  have hempty : c._scripts k = "" := by
    by_contra hne
    simp [hne] at hhas
  rw [hrun, hempty]
  simp [runScript]

/-- Evaluation of `runScriptEvent_delegates`: the unbound event kind 4 of the
example container returns true without touching the machine. -/
theorem runScriptEvent_delegates_witness :
    Example.enterOnly.runScriptEvent Example.engine 4 1 2 Example.machine
      = (.ok true, Example.machine) :=
  (runScriptEvent_delegates Example.enterOnly Example.engine
    (4 : Fin 38) 1 2 Example.machine).2 rfl

end ScriptContainer

end NWN

end Engines
